import Mathlib

/-!
Verification development for the fsagent repository.

The Go sources under pkg/calculator/qos.go, pkg/metrics/internal_metrics.go
and cmd/fsagent/main.go are shallowly embedded below.  Machine floats
(float64) are modelled as rationals; the decimal strings and arithmetic
appearing in the verified properties are exact in both semantics.  Go int64
values are modelled as integers with the strconv range checks made explicit.
The store and connection packages are not part of the sources at hand; the
pieces of them the calculator needs (the ChannelStateStore contract and the
event header accessor) are modelled from the specification and marked as
such in their doc comments.
-/

/-! ## Numeric string parsing (strconv model)

Models the success/failure behaviour of strconv.ParseFloat, strconv.ParseInt
(base 10, 64 bit), strconv.Atoi and strconv.ParseUint (base 10, 16 bit) on
plain decimal inputs.  Exponent, hexadecimal and infinity forms of ParseFloat
are not modelled; none of the verified properties touch them.
-/

/-- Value of a digit list, failing when empty or when a non-digit occurs. -/
def digitsVal? (cs : List Char) : Option Nat :=
  if cs.isEmpty then none
  else cs.foldl (fun acc c =>
    match acc with
    | some n => if c.isDigit then some (n * 10 + (c.toNat - 48)) else none
    | none => none) (some 0)

/-- Value of a digit list assumed to contain only digits, empty list is 0. -/
def digitsVal0 (cs : List Char) : Nat :=
  cs.foldl (fun n c => n * 10 + (c.toNat - 48)) 0

/-- Split a leading sign character; the flag records a leading minus. -/
def splitSign : List Char → (Bool × List Char)
  | '-' :: cs => (true, cs)
  | '+' :: cs => (false, cs)
  | cs => (false, cs)

/-- Model of strconv.ParseFloat on decimal inputs: optional sign, integer
digits, optional dot and fraction digits, at least one digit overall. -/
def parseFloat? (s : String) : Option ℚ :=
  let p := splitSign s.toList
  let intPart := p.2.takeWhile Char.isDigit
  let rest := p.2.dropWhile Char.isDigit
  match rest with
  | [] =>
    if intPart.isEmpty then none
    else some (if p.1 then -(digitsVal0 intPart : ℚ) else (digitsVal0 intPart : ℚ))
  | '.' :: fracCs =>
    if fracCs.all Char.isDigit ∧ ¬(intPart.isEmpty ∧ fracCs.isEmpty) then
      let q : ℚ := (digitsVal0 intPart : ℚ) + (digitsVal0 fracCs : ℚ) / (10 : ℚ) ^ fracCs.length
      some (if p.1 then -q else q)
    else none
  | _ => none

/-- Model of strconv.ParseInt with base 10 and bitSize 64 (also Atoi on a
64 bit platform): optional sign, digits, int64 range check. -/
def parseInt64? (s : String) : Option Int :=
  let p := splitSign s.toList
  match digitsVal? p.2 with
  | none => none
  | some n =>
    let v : Int := if p.1 then -(n : Int) else (n : Int)
    if -(2 ^ 63) ≤ v ∧ v ≤ 2 ^ 63 - 1 then some v else none

/-- Model of strconv.ParseUint with base 10 and bitSize 16: digits only,
uint16 range check. -/
def parseUint16? (s : String) : Option Nat :=
  match digitsVal? s.toList with
  | some n => if n ≤ 65535 then some n else none
  | none => none

/-! ## Events and the channel state store -/

/-- Modelled from the spec: a normalized event carries an ordered mapping of
header name to string value, case sensitive, last-write-wins on duplicate
headers.  Only the header mapping is modelled here: the calculator reads
events exclusively through the header accessor. -/
structure FSEvent where
  headers : List (String × String)
deriving DecidableEq

/-- Modelled from the spec: header accessor of the connection package.
Last-write-wins on duplicates; an absent header reads as the empty string,
which is how the calculator tests header presence. -/
def FSEvent.GetHeader (e : FSEvent) (name : String) : String :=
  match e.headers.reverse.find? (fun p => p.1 == name) with
  | some p => p.2
  | none => ""

/-- Per-leg correlation state, as used by cmd/fsagent/main.go and described
in the data model section of the spec. -/
structure ChannelState where
  ChannelID : String
  CorrelationID : String
  DomainName : String
  InstanceName : String
  CreatedAt : Nat
  UpdatedAt : Nat
deriving DecidableEq

/-- One entry of the in-process store: key, state and absolute expiry. -/
structure MemEntry where
  key : String
  state : ChannelState
  expiresAt : Nat
deriving DecidableEq

/-- Modelled from the spec: the in-process backend of the ChannelStateStore
contract (Get / Set / Delete / Close with per-entry expiry). -/
abbrev MemoryStore := List MemEntry

/-- Modelled from the spec: Get returns the stored state unless the key is
absent or the entry has expired, which both read as not-found. -/
def storeGet (now : Nat) (s : MemoryStore) (k : String) : Option ChannelState :=
  match s.find? (fun en => en.key == k) with
  | some en => if now < en.expiresAt then some en.state else none
  | none => none

/-- Modelled from the spec: Delete removes the entry for the key and is
idempotent, deleting an absent key is not an error. -/
def storeDelete (s : MemoryStore) (k : String) : MemoryStore :=
  s.filter (fun en => !(en.key == k))

/-- Modelled from the spec: Set always overwrites any prior value for the
key and resets its expiry from the supplied time-to-live. -/
def storeSet (now ttl : Nat) (s : MemoryStore) (k : String) (st : ChannelState) :
    MemoryStore :=
  storeDelete s k ++ [⟨k, st, now + ttl⟩]

/-! ## QoS metrics (pkg/calculator/qos.go) -/

/-- Calculated QoS metrics, field for field the QoSMetrics struct of
pkg/calculator/qos.go.  float64 fields are rationals, int64 and int fields
are integers, the uint16 ports are naturals, timestamps are naturals. -/
structure QoSMetrics where
  Timestamp : Nat
  InstanceName : String
  ChannelID : String
  CorrelationID : String
  DomainName : String
  MOSScore : ℚ
  AvgJitter : ℚ
  MinJitter : ℚ
  MaxJitter : ℚ
  Delta : ℚ
  TotalPackets : Int
  PacketLoss : Int
  TotalBytes : Int
  CodecName : String
  CodecPT : Int
  PTime : Int
  ClockRate : Int
  SrcIP : String
  SrcPort : Nat
  DstIP : String
  DstPort : Nat
  ReportTimestamp : Int

/-- The freshly initialized metrics record of CalculateMetrics: timestamp,
instance name and channel id set, every other field at its Go zero value. -/
def initMetrics (now : Nat) (instanceName channelID : String) : QoSMetrics :=
  { Timestamp := now
    InstanceName := instanceName
    ChannelID := channelID
    CorrelationID := ""
    DomainName := ""
    MOSScore := 0
    AvgJitter := 0
    MinJitter := 0
    MaxJitter := 0
    Delta := 0
    TotalPackets := 0
    PacketLoss := 0
    TotalBytes := 0
    CodecName := ""
    CodecPT := 0
    PTime := 0
    ClockRate := 0
    SrcIP := ""
    SrcPort := 0
    DstIP := ""
    DstPort := 0
    ReportTimestamp := 0 }

/-- MOS block of extractQualityMetrics: the new MOSScore value is the parsed
header when present and parsing succeeds, the prior value otherwise. -/
def mosScoreVal (e : FSEvent) (m : QoSMetrics) : ℚ :=
  if e.GetHeader "variable_rtp_audio_in_mos" = "" then m.MOSScore
  else match parseFloat? (e.GetHeader "variable_rtp_audio_in_mos") with
    | some mos => mos
    | none => m.MOSScore

/-- Min jitter block of extractQualityMetrics. -/
def minJitterVal (e : FSEvent) (m : QoSMetrics) : ℚ :=
  if e.GetHeader "variable_rtp_audio_in_jitter_min_variance" = "" then m.MinJitter
  else match parseFloat? (e.GetHeader "variable_rtp_audio_in_jitter_min_variance") with
    | some v => v
    | none => m.MinJitter

/-- Max jitter block of extractQualityMetrics. -/
def maxJitterVal (e : FSEvent) (m : QoSMetrics) : ℚ :=
  if e.GetHeader "variable_rtp_audio_in_jitter_max_variance" = "" then m.MaxJitter
  else match parseFloat? (e.GetHeader "variable_rtp_audio_in_jitter_max_variance") with
    | some v => v
    | none => m.MaxJitter

/-- Average jitter block of extractQualityMetrics, computed from the already
updated jitter bounds: (min + max) / 2 when either bound is positive. -/
def avgJitterVal (m : QoSMetrics) : ℚ :=
  if 0 < m.MinJitter ∨ 0 < m.MaxJitter then (m.MinJitter + m.MaxJitter) / 2
  else m.AvgJitter

/-- Delta block of extractQualityMetrics. -/
def deltaVal (e : FSEvent) (m : QoSMetrics) : ℚ :=
  if e.GetHeader "variable_rtp_audio_in_mean_interval" = "" then m.Delta
  else match parseFloat? (e.GetHeader "variable_rtp_audio_in_mean_interval") with
    | some v => v
    | none => m.Delta

/-- State of the metrics record after the MOS and jitter-bound blocks of
extractQualityMetrics: the three blocks touch pairwise distinct fields and
read only the event, so their sequential mutations equal this simultaneous
update. -/
def qualityMid (e : FSEvent) (m : QoSMetrics) : QoSMetrics :=
  { m with
    MOSScore := mosScoreVal e m
    MinJitter := minJitterVal e m
    MaxJitter := maxJitterVal e m }

/-- Body of extractQualityMetrics, block by block in source order: MOS and
jitter bounds first, then the average computed from the updated bounds,
then delta from the event, exactly the mutation order of the source. -/
def extractQualityMetricsCore (e : FSEvent) (m : QoSMetrics) : QoSMetrics :=
  { qualityMid e m with
    AvgJitter := avgJitterVal (qualityMid e m)
    Delta := deltaVal e (qualityMid e m) }

/-- extractQualityMetrics of qos.go: its body has no failing path, the final
statement returns nil. -/
def extractQualityMetrics (e : FSEvent) (m : QoSMetrics) : Except String QoSMetrics :=
  Except.ok (extractQualityMetricsCore e m)

/-- The local-variable pattern of extractTrafficMetrics: an int64 local that
stays 0 unless the header is present and parses. -/
def readInt64Header (e : FSEvent) (k : String) : Int :=
  if e.GetHeader k = "" then 0
  else match parseInt64? (e.GetHeader k) with
    | some v => v
    | none => 0

/-- Body of extractTrafficMetrics: sum inbound and outbound packet, byte and
skip counts into their three total fields. -/
def extractTrafficMetricsCore (e : FSEvent) (m : QoSMetrics) : QoSMetrics :=
  let inboundPackets := readInt64Header e "variable_rtp_audio_in_packet_count"
  let outboundPackets := readInt64Header e "variable_rtp_audio_out_packet_count"
  let inboundBytes := readInt64Header e "variable_rtp_audio_in_media_bytes"
  let outboundBytes := readInt64Header e "variable_rtp_audio_out_media_bytes"
  let inboundSkip := readInt64Header e "variable_rtp_audio_in_skip_packet_count"
  let outboundSkip := readInt64Header e "variable_rtp_audio_out_skip_packet_count"
  { m with
    TotalPackets := inboundPackets + outboundPackets
    TotalBytes := inboundBytes + outboundBytes
    PacketLoss := inboundSkip + outboundSkip }

/-- extractTrafficMetrics of qos.go: its body has no failing path. -/
def extractTrafficMetrics (e : FSEvent) (m : QoSMetrics) : Except String QoSMetrics :=
  Except.ok (extractTrafficMetricsCore e m)

/-- The Atoi pattern of extractCodecInfo: a parsed int only when the header
is present and parses. -/
def readAtoiHeader? (e : FSEvent) (k : String) : Option Int :=
  if e.GetHeader k = "" then none
  else parseInt64? (e.GetHeader k)

/-- Codec name block of extractCodecInfo. -/
def codecNameVal (e : FSEvent) (m : QoSMetrics) : String :=
  if e.GetHeader "variable_rtp_use_codec_name" = "" then m.CodecName
  else e.GetHeader "variable_rtp_use_codec_name"

/-- Codec payload type block of extractCodecInfo. -/
def codecPTVal (e : FSEvent) (m : QoSMetrics) : Int :=
  match readAtoiHeader? e "variable_rtp_use_codec_pt" with
  | some v => v
  | none => m.CodecPT

/-- Ptime block of extractCodecInfo. -/
def pTimeVal (e : FSEvent) (m : QoSMetrics) : Int :=
  match readAtoiHeader? e "variable_rtp_use_codec_ptime" with
  | some v => v
  | none => m.PTime

/-- Clock rate block of extractCodecInfo. -/
def clockRateVal (e : FSEvent) (m : QoSMetrics) : Int :=
  match readAtoiHeader? e "variable_rtp_use_codec_rate" with
  | some v => v
  | none => m.ClockRate

/-- Local media IP block of extractCodecInfo. -/
def srcIPVal (e : FSEvent) (m : QoSMetrics) : String :=
  if e.GetHeader "variable_local_media_ip" = "" then m.SrcIP
  else e.GetHeader "variable_local_media_ip"

/-- Local media port block of extractCodecInfo. -/
def srcPortVal (e : FSEvent) (m : QoSMetrics) : Nat :=
  if e.GetHeader "variable_local_media_port" = "" then m.SrcPort
  else match parseUint16? (e.GetHeader "variable_local_media_port") with
    | some v => v
    | none => m.SrcPort

/-- Remote media IP block of extractCodecInfo. -/
def dstIPVal (e : FSEvent) (m : QoSMetrics) : String :=
  if e.GetHeader "variable_remote_media_ip" = "" then m.DstIP
  else e.GetHeader "variable_remote_media_ip"

/-- Remote media port block of extractCodecInfo. -/
def dstPortVal (e : FSEvent) (m : QoSMetrics) : Nat :=
  if e.GetHeader "variable_remote_media_port" = "" then m.DstPort
  else match parseUint16? (e.GetHeader "variable_remote_media_port") with
    | some v => v
    | none => m.DstPort

/-- Report timestamp block of extractCodecInfo. -/
def reportTimestampVal (e : FSEvent) (m : QoSMetrics) : Int :=
  if e.GetHeader "Event-Date-Timestamp" = "" then m.ReportTimestamp
  else match parseInt64? (e.GetHeader "Event-Date-Timestamp") with
    | some v => v
    | none => m.ReportTimestamp

/-- Body of extractCodecInfo, block by block in source order.  Every block
touches its own field and reads only the event, so the sequential mutations
of the source equal this simultaneous update. -/
def extractCodecInfoCore (e : FSEvent) (m : QoSMetrics) : QoSMetrics :=
  { m with
    CodecName := codecNameVal e m
    CodecPT := codecPTVal e m
    PTime := pTimeVal e m
    ClockRate := clockRateVal e m
    SrcIP := srcIPVal e m
    SrcPort := srcPortVal e m
    DstIP := dstIPVal e m
    DstPort := dstPortVal e m
    ReportTimestamp := reportTimestampVal e m }

/-- extractCodecInfo of qos.go: its body has no failing path. -/
def extractCodecInfo (e : FSEvent) (m : QoSMetrics) : Except String QoSMetrics :=
  Except.ok (extractCodecInfoCore e m)

/-- The correlation id fallback chain of extractStateAndDomain:
Other-Leg-Unique-ID, then Unique-ID, then variable_sip_call_id, then
variable_global_call_id, else the field keeps its prior value. -/
def fallbackCorrelationIDVal (e : FSEvent) (m : QoSMetrics) : String :=
  if e.GetHeader "Other-Leg-Unique-ID" ≠ "" then e.GetHeader "Other-Leg-Unique-ID"
  else if e.GetHeader "Unique-ID" ≠ "" then e.GetHeader "Unique-ID"
  else if e.GetHeader "variable_sip_call_id" ≠ "" then e.GetHeader "variable_sip_call_id"
  else if e.GetHeader "variable_global_call_id" ≠ "" then e.GetHeader "variable_global_call_id"
  else m.CorrelationID

/-- The domain name fallback chain of extractStateAndDomain:
variable_domain_name, then variable_sip_from_host, then
variable_sip_to_host, else the field keeps its prior value (empty by
default). -/
def fallbackDomainNameVal (e : FSEvent) (m : QoSMetrics) : String :=
  if e.GetHeader "variable_domain_name" ≠ "" then e.GetHeader "variable_domain_name"
  else if e.GetHeader "variable_sip_from_host" ≠ "" then e.GetHeader "variable_sip_from_host"
  else if e.GetHeader "variable_sip_to_host" ≠ "" then e.GetHeader "variable_sip_to_host"
  else m.DomainName

/-- Body of extractStateAndDomain: on a successful store Get the state
supplies CorrelationID and DomainName and the entry is deleted; otherwise
both fields fall back to the header priority chains (the two chains touch
distinct fields and read only the event).  A Delete failure in the source is
only logged, never surfaced, so the modelled Delete is the total in-memory
one. -/
def extractStateAndDomainCore (now : Nat) (s : MemoryStore) (e : FSEvent)
    (m : QoSMetrics) : QoSMetrics × MemoryStore :=
  match storeGet now s m.ChannelID with
  | some st =>
    ({ m with CorrelationID := st.CorrelationID, DomainName := st.DomainName },
      storeDelete s m.ChannelID)
  | none =>
    ({ m with
        CorrelationID := fallbackCorrelationIDVal e m
        DomainName := fallbackDomainNameVal e m }, s)

/-- extractStateAndDomain of qos.go: both branches return nil error. -/
def extractStateAndDomain (now : Nat) (s : MemoryStore) (e : FSEvent)
    (m : QoSMetrics) : Except String QoSMetrics × MemoryStore :=
  (Except.ok (extractStateAndDomainCore now s e m).1,
    (extractStateAndDomainCore now s e m).2)

/-- CalculateMetrics of qos.go: guard on the codec marker header, guard on
Unique-ID, then the four extraction stages in source order, each failing
stage wrapped and returned as an error.  The store is threaded explicitly,
standing for the mutable store field of the calculator. -/
def CalculateMetrics (now : Nat) (s : MemoryStore) (event : FSEvent)
    (instanceName : String) : Except String QoSMetrics × MemoryStore :=
  if event.GetHeader "variable_rtp_use_codec_rate" = "" then
    (Except.error "variable_rtp_use_codec_rate not present, skipping QoS calculation", s)
  else if event.GetHeader "Unique-ID" = "" then
    (Except.error "CHANNEL_DESTROY event missing Unique-ID", s)
  else
    match extractQualityMetrics event
        (initMetrics now instanceName (event.GetHeader "Unique-ID")) with
    | Except.error msg => (Except.error ("failed to extract quality metrics: " ++ msg), s)
    | Except.ok m1 =>
      match extractTrafficMetrics event m1 with
      | Except.error msg => (Except.error ("failed to extract traffic metrics: " ++ msg), s)
      | Except.ok m2 =>
        match extractCodecInfo event m2 with
        | Except.error msg => (Except.error ("failed to extract codec info: " ++ msg), s)
        | Except.ok m3 =>
          match extractStateAndDomain now s event m3 with
          | (Except.error msg, s1) =>
            (Except.error ("failed to extract state and domain: " ++ msg), s1)
          | (Except.ok m4, s1) => (Except.ok m4, s1)

/-- First non-empty header in a priority list, empty when none matches.
This is the ordered-fallback reading of the spec, compared below with the
nested conditionals of the source. -/
def firstNonEmptyHeader (e : FSEvent) : List String → String
  | [] => ""
  | k :: ks => if e.GetHeader k = "" then firstNonEmptyHeader e ks else e.GetHeader k

/-- The metrics record CalculateMetrics has built right before the state and
domain stage: the quality, traffic and codec extractions applied to the
fresh record. -/
def calcPreState (now : Nat) (iname : String) (e : FSEvent) : QoSMetrics :=
  extractCodecInfoCore e (extractTrafficMetricsCore e
    (extractQualityMetricsCore e (initMetrics now iname (e.GetHeader "Unique-ID"))))

/-! ## Process lifecycle (cmd/fsagent/main.go) -/

/-- Outcomes of the stages main runs through, in source order.  Each flag
records whether the corresponding call succeeds; activeConnections is the
number of connected instances reported after the connection manager starts.
A connection manager start error is only logged by main, hence its own
flag. -/
structure MainInputs where
  versionFlag : Bool
  helpFlag : Bool
  configLoadOk : Bool
  startupValidationOk : Bool
  storeInitOk : Bool
  exporterInitOk : Bool
  processorStartOk : Bool
  connManagerStartOk : Bool
  activeConnections : Nat
  httpServerStartOk : Bool
deriving DecidableEq

/-- Either the process called os.Exit with the given code, or it reached the
running state where it waits for a shutdown signal. -/
inductive MainResult where
  | exited (code : Nat)
  | running
deriving DecidableEq

/-- Control flow of main in cmd/fsagent/main.go: version and help exit 0,
then every startup stage in source order, exiting 1 on the failures main
treats as fatal.  The connection manager start result is only logged. -/
def mainOutcome (i : MainInputs) : MainResult :=
  if i.versionFlag then MainResult.exited 0
  else if i.helpFlag then MainResult.exited 0
  else if !i.configLoadOk then MainResult.exited 1
  else if !i.startupValidationOk then MainResult.exited 1
  else if !i.storeInitOk then MainResult.exited 1
  else if !i.exporterInitOk then MainResult.exited 1
  else if !i.processorStartOk then MainResult.exited 1
  else if i.activeConnections = 0 then MainResult.exited 1
  else if !i.httpServerStartOk then MainResult.exited 1
  else MainResult.running

/-- The teardown targets touched by gracefulShutdown in main.go. -/
inductive ShutdownStep where
  | cancelMainCtx
  | httpServer
  | connManager
  | eventProcessor
  | metricsExporter
  | stateStore
deriving DecidableEq, BEq

/-- The call sequence of gracefulShutdown in source order: cancel the root
context, stop the HTTP server, stop the connection manager, stop the event
processor, flush and stop the metrics exporter, close the state store. -/
def gracefulShutdownTrace : List ShutdownStep :=
  [ShutdownStep.cancelMainCtx, ShutdownStep.httpServer, ShutdownStep.connManager,
    ShutdownStep.eventProcessor, ShutdownStep.metricsExporter, ShutdownStep.stateStore]

/-! ## Internal stats registry (pkg/metrics/internal_metrics.go)

The nested Go maps instance -> key -> counter are modelled as association
lists; a lookup reads the first entry with the key, an absent counter reads
as zero, exactly the Go read of a missing map entry. -/

/-- Membership test of a key, the comma-ok idiom on a Go map. -/
def hasKey1 {α : Type} : List (String × α) → String → Bool
  | [], _ => false
  | p :: l, k => if p.1 = k then true else hasKey1 l k

/-- Read a leaf counter, 0 when the key is absent, the Go read of a missing
map entry. -/
def lookupCount1 : List (String × Int) → String → Int
  | [], _ => 0
  | p :: l, k => if p.1 = k then p.2 else lookupCount1 l k

/-- Read a nested counter, 0 when either key is absent. -/
def lookupCount2 : List (String × List (String × Int)) → String → String → Int
  | [], _, _ => 0
  | p :: l, i, t => if p.1 = i then lookupCount1 p.2 t else lookupCount2 l i t

/-- The leaf increment of internal_metrics.go: create the counter at 0 when
absent, then add 1 to it. -/
def incrCounter1 (l : List (String × Int)) (k : String) : List (String × Int) :=
  let l1 := if hasKey1 l k then l else l ++ [(k, 0)]
  l1.map fun p => if p.1 = k then (p.1, p.2 + 1) else p

/-- The nested increment of internal_metrics.go: create the inner map when
absent, then increment the leaf inside it. -/
def incrCounter2 (l : List (String × List (String × Int))) (i t : String) :
    List (String × List (String × Int)) :=
  let l1 := if hasKey1 l i then l else l ++ [(i, [])]
  l1.map fun p => if p.1 = i then (p.1, incrCounter1 p.2 t) else p

/-- The InternalMetrics struct of internal_metrics.go: six counter
families. -/
structure InternalMetrics where
  eventsReceived : List (String × List (String × Int))
  eventsProcessed : List (String × List (String × Int))
  rtcpMessagesProcessed : List (String × List (String × Int))
  qosMessagesGenerated : List (String × Int)
  storageOperations : List (String × List (String × Int))
  fsConnections : List (String × Int)
deriving DecidableEq

/-- The value built by the once.Do body of GetMetrics: all six families
empty. -/
def emptyInternalMetrics : InternalMetrics :=
  { eventsReceived := []
    eventsProcessed := []
    rtcpMessagesProcessed := []
    qosMessagesGenerated := []
    storageOperations := []
    fsConnections := [] }

/-- IncrementEventsReceived of internal_metrics.go: under the mutex, create
the per-instance inner map and the per-type counter when absent, then add 1
to that counter. -/
def IncrementEventsReceived (m : InternalMetrics) (inst evType : String) :
    InternalMetrics :=
  { m with eventsReceived := incrCounter2 m.eventsReceived inst evType }

/-- The package-level state behind GetMetrics: the globalMetrics pointer
(an address paired with the pointed-to value), how many times the once.Do
body has run, and the next fresh address. -/
structure StatsRegistry where
  globalMetrics : Option (Nat × InternalMetrics)
  onceRuns : Nat
  nextAddr : Nat
deriving DecidableEq

/-- GetMetrics of internal_metrics.go: on the first call the once.Do body
allocates the empty registry and stores it; afterwards the stored pointer is
returned unchanged. -/
def GetMetrics (s : StatsRegistry) : (Nat × InternalMetrics) × StatsRegistry :=
  match s.globalMetrics with
  | some inst => (inst, s)
  | none =>
    ((s.nextAddr, emptyInternalMetrics),
      { globalMetrics := some (s.nextAddr, emptyInternalMetrics)
        onceRuns := s.onceRuns + 1
        nextAddr := s.nextAddr + 1 })

/-- Package initialization state: no instance yet, the once body has never
run. -/
def initialRegistry : StatsRegistry :=
  { globalMetrics := none, onceRuns := 0, nextAddr := 0 }

/-- n successive calls of GetMetrics, tracking only the state. -/
def iterateGetMetrics : Nat → StatsRegistry → StatsRegistry
  | 0, s => s
  | n + 1, s => iterateGetMetrics n (GetMetrics s).2

/-! ## Concrete inputs used to instantiate the verified properties -/

/-- A termination event without the codec marker header. -/
def evNoMarker : FSEvent := ⟨[("Unique-ID", "u-1")]⟩

/-- An event carrying only the codec marker header. -/
def evMarkerOnly : FSEvent := ⟨[("variable_rtp_use_codec_rate", "8000")]⟩

/-- A termination event for channel u1 with the codec marker. -/
def evTermination : FSEvent :=
  ⟨[("variable_rtp_use_codec_rate", "8000"), ("Unique-ID", "u1")]⟩

/-- A live state for channel u1. -/
def stWitness : ChannelState :=
  ⟨"u1", "corr-1", "dom.example", "fs1", 0, 0⟩

/-- A store holding exactly the live state for channel u1, expiring at 100. -/
def storeWitness : MemoryStore := [⟨"u1", stWitness, 100⟩]

/-- A termination event with both an other-leg id and a signaling call id,
a from-host but no explicit domain header. -/
def evFallback : FSEvent :=
  ⟨[("variable_rtp_use_codec_rate", "8000"), ("Unique-ID", "u3"),
    ("Other-Leg-Unique-ID", "X"), ("variable_sip_call_id", "Y"),
    ("variable_sip_from_host", "a.com")]⟩

/-- The termination event of scenario A: codec marker, channel U1, MOS 4.2,
jitter bounds 1.0 and 3.0. -/
def evScenario : FSEvent :=
  ⟨[("variable_rtp_use_codec_rate", "8000"), ("Unique-ID", "U1"),
    ("variable_rtp_audio_in_mos", "4.2"),
    ("variable_rtp_audio_in_jitter_min_variance", "1.0"),
    ("variable_rtp_audio_in_jitter_max_variance", "3.0")]⟩

/-- An event whose numeric headers are all present but unparseable. -/
def evBadNumbers : FSEvent :=
  ⟨[("variable_rtp_use_codec_rate", "8000"), ("Unique-ID", "u9"),
    ("variable_rtp_audio_in_mos", "abc"),
    ("variable_rtp_audio_in_packet_count", "pqr"),
    ("variable_rtp_audio_out_packet_count", "-"),
    ("variable_rtp_use_codec_pt", "9z")]⟩

/-- A run of main where only the metrics exporter fails to construct. -/
def exporterFailInput : MainInputs :=
  { versionFlag := false
    helpFlag := false
    configLoadOk := true
    startupValidationOk := true
    storeInitOk := true
    exporterInitOk := false
    processorStartOk := true
    connManagerStartOk := true
    activeConnections := 1
    httpServerStartOk := true }

/-- A run of main where every stage succeeds and two instances connect. -/
def allGoodInput : MainInputs :=
  { versionFlag := false
    helpFlag := false
    configLoadOk := true
    startupValidationOk := true
    storeInitOk := true
    exporterInitOk := true
    processorStartOk := true
    connManagerStartOk := true
    activeConnections := 2
    httpServerStartOk := true }

/-! ## Helper lemmas -/

theorem parseFloat_empty : parseFloat? "" = none := rfl

theorem find_filter_none (s : MemoryStore) (k : String) :
    (s.filter fun en => !(en.key == k)).find? (fun en => en.key == k) = none := by
  rw [List.find?_eq_none]
  intro x hx
  have h2 := (List.mem_filter.mp hx).2
  simp only [Bool.not_eq_true', beq_eq_false_iff_ne] at h2
  simp [h2]

theorem storeGet_delete_self (now : Nat) (s : MemoryStore) (k : String) :
    storeGet now (storeDelete s k) k = none := by
  unfold storeGet storeDelete
  rw [find_filter_none]

theorem CalculateMetrics_ok (now : Nat) (s : MemoryStore) (e : FSEvent) (iname : String)
    (hm : ¬ e.GetHeader "variable_rtp_use_codec_rate" = "")
    (hu : ¬ e.GetHeader "Unique-ID" = "") :
    CalculateMetrics now s e iname =
      (Except.ok (extractStateAndDomainCore now s e (calcPreState now iname e)).1,
        (extractStateAndDomainCore now s e (calcPreState now iname e)).2) := by
  unfold CalculateMetrics
  rw [if_neg hm, if_neg hu]
  rfl

theorem mosScoreVal_parse (e : FSEvent) (m : QoSMetrics) (q : ℚ)
    (hq : parseFloat? (e.GetHeader "variable_rtp_audio_in_mos") = some q) :
    mosScoreVal e m = q := by
  unfold mosScoreVal
  have hne : ¬ e.GetHeader "variable_rtp_audio_in_mos" = "" := by
    intro h0
    rw [h0, parseFloat_empty] at hq
    exact Option.noConfusion hq
  rw [if_neg hne, hq]

theorem minJitterVal_parse (e : FSEvent) (m : QoSMetrics) (q : ℚ)
    (hq : parseFloat? (e.GetHeader "variable_rtp_audio_in_jitter_min_variance") = some q) :
    minJitterVal e m = q := by
  unfold minJitterVal
  have hne : ¬ e.GetHeader "variable_rtp_audio_in_jitter_min_variance" = "" := by
    intro h0
    rw [h0, parseFloat_empty] at hq
    exact Option.noConfusion hq
  rw [if_neg hne, hq]

theorem maxJitterVal_parse (e : FSEvent) (m : QoSMetrics) (q : ℚ)
    (hq : parseFloat? (e.GetHeader "variable_rtp_audio_in_jitter_max_variance") = some q) :
    maxJitterVal e m = q := by
  unfold maxJitterVal
  have hne : ¬ e.GetHeader "variable_rtp_audio_in_jitter_max_variance" = "" := by
    intro h0
    rw [h0, parseFloat_empty] at hq
    exact Option.noConfusion hq
  rw [if_neg hne, hq]

theorem mosScoreVal_noparse (e : FSEvent) (m : QoSMetrics)
    (hq : parseFloat? (e.GetHeader "variable_rtp_audio_in_mos") = none) :
    mosScoreVal e m = m.MOSScore := by
  unfold mosScoreVal
  split
  · rfl
  · rw [hq]

theorem avgJitterVal_pos (m : QoSMetrics) (h : 0 < m.MinJitter ∨ 0 < m.MaxJitter) :
    avgJitterVal m = (m.MinJitter + m.MaxJitter) / 2 := by
  unfold avgJitterVal
  rw [if_pos h]

theorem readInt64Header_noparse (e : FSEvent) (k : String)
    (h : parseInt64? (e.GetHeader k) = none) :
    readInt64Header e k = 0 := by
  unfold readInt64Header
  split
  · rfl
  · rw [h]

theorem readAtoiHeader_noparse (e : FSEvent) (k : String)
    (h : parseInt64? (e.GetHeader k) = none) :
    readAtoiHeader? e k = none := by
  unfold readAtoiHeader?
  split
  · rfl
  · exact h

theorem codecPTVal_noparse (e : FSEvent) (m : QoSMetrics)
    (h : parseInt64? (e.GetHeader "variable_rtp_use_codec_pt") = none) :
    codecPTVal e m = m.CodecPT := by
  unfold codecPTVal
  rw [readAtoiHeader_noparse e _ h]

theorem fallbackCorrelationIDVal_eq (e : FSEvent) (m : QoSMetrics)
    (h : m.CorrelationID = "") :
    fallbackCorrelationIDVal e m =
      firstNonEmptyHeader e
        ["Other-Leg-Unique-ID", "Unique-ID", "variable_sip_call_id",
          "variable_global_call_id"] := by
  unfold fallbackCorrelationIDVal
  simp only [firstNonEmptyHeader]
  split_ifs <;> simp_all

theorem fallbackDomainNameVal_eq (e : FSEvent) (m : QoSMetrics)
    (h : m.DomainName = "") :
    fallbackDomainNameVal e m =
      firstNonEmptyHeader e
        ["variable_domain_name", "variable_sip_from_host", "variable_sip_to_host"] := by
  unfold fallbackDomainNameVal
  simp only [firstNonEmptyHeader]
  split_ifs <;> simp_all

/-! ## Registry stability helpers -/

theorem GetMetrics_stable (s : StatsRegistry) (x : Nat × InternalMetrics)
    (h : s.globalMetrics = some x) : GetMetrics s = (x, s) := by
  unfold GetMetrics
  rw [h]

theorem iterateGetMetrics_stable (n : Nat) (s : StatsRegistry) (x : Nat × InternalMetrics)
    (h : s.globalMetrics = some x) : iterateGetMetrics n s = s := by
  induction n with
  | zero => rfl
  | succ k ih =>
    show iterateGetMetrics k (GetMetrics s).2 = s
    rw [GetMetrics_stable s x h]
    exact ih

/-! ## Claims -/

/-- C2, counterexample: on an event without the codec marker header,
CalculateMetrics does return an error value, so the skip is signalled
through the error return, contradicting the claim that the outcome is not
an error. -/
theorem c2_counterexample :
    evNoMarker.GetHeader "variable_rtp_use_codec_rate" = ""
    ∧ CalculateMetrics 0 [] evNoMarker "fs1"
        = (Except.error "variable_rtp_use_codec_rate not present, skipping QoS calculation",
            []) :=
  ⟨rfl, rfl⟩

/-- C2, amended: for every termination event in which the codec marker
header variable_rtp_use_codec_rate is absent, CalculateMetrics produces no
metric and leaves the store untouched, signalling the skip through its
error return with the fixed skip message. -/
theorem c2_missing_marker_skips (now : Nat) (s : MemoryStore) (e : FSEvent)
    (iname : String) (h : e.GetHeader "variable_rtp_use_codec_rate" = "") :
    CalculateMetrics now s e iname
      = (Except.error "variable_rtp_use_codec_rate not present, skipping QoS calculation",
          s) := by
  unfold CalculateMetrics
  rw [if_pos h]

/-- C2, witness: the amended statement evaluated on a concrete event. -/
theorem c2_witness :
    evNoMarker.GetHeader "variable_rtp_use_codec_rate" = ""
    ∧ CalculateMetrics 7 [] evNoMarker "fsA"
        = (Except.error "variable_rtp_use_codec_rate not present, skipping QoS calculation",
            []) :=
  ⟨rfl, c2_missing_marker_skips 7 [] evNoMarker "fsA" rfl⟩

/-- C4, counterexample: a run in which the state store constructs fine and
one instance is connected, yet the process exits 1 because the metrics
exporter fails to construct; fatal conditions are not limited to the two
named by the claim. -/
theorem c4_counterexample :
    exporterFailInput.storeInitOk = true
    ∧ exporterFailInput.activeConnections ≠ 0
    ∧ mainOutcome exporterFailInput = MainResult.exited 1 := by
  decide

/-- C4, amended: outside the version and help modes, the conditions that
abort the process with exit 1 are exactly: configuration load failure,
startup validation failure, state store construction failure, metrics
exporter construction failure, event processor start failure, zero active
connections after the connection manager starts, and HTTP server start
failure; when none of them holds the process reaches its running state, and
a connection manager start error alone never changes the outcome. -/
theorem c4_fatal_conditions (i : MainInputs) (b : Bool)
    (hv : i.versionFlag = false) (hh : i.helpFlag = false) :
    (mainOutcome i = MainResult.running ↔
      (i.configLoadOk = true ∧ i.startupValidationOk = true ∧ i.storeInitOk = true
        ∧ i.exporterInitOk = true ∧ i.processorStartOk = true
        ∧ i.activeConnections ≠ 0 ∧ i.httpServerStartOk = true))
    ∧ (mainOutcome i = MainResult.running ∨ mainOutcome i = MainResult.exited 1)
    ∧ mainOutcome { i with connManagerStartOk := b } = mainOutcome i := by
  obtain ⟨v, h, c, sv, st, ex, pr, cm, ac, ht⟩ := i
  simp only at hv hh
  subst hv hh
  cases c <;> cases sv <;> cases st <;> cases ex <;> cases pr <;> cases ht <;>
    rcases Nat.eq_zero_or_pos ac with hac | hac <;>
      simp_all [mainOutcome, Nat.pos_iff_ne_zero]

/-- C4, witness: the amended characterization evaluated on a fully
successful run. -/
theorem c4_witness :
    allGoodInput.versionFlag = false ∧ allGoodInput.helpFlag = false
    ∧ ((mainOutcome allGoodInput = MainResult.running ↔
        (allGoodInput.configLoadOk = true ∧ allGoodInput.startupValidationOk = true
          ∧ allGoodInput.storeInitOk = true ∧ allGoodInput.exporterInitOk = true
          ∧ allGoodInput.processorStartOk = true ∧ allGoodInput.activeConnections ≠ 0
          ∧ allGoodInput.httpServerStartOk = true))
      ∧ (mainOutcome allGoodInput = MainResult.running
          ∨ mainOutcome allGoodInput = MainResult.exited 1)
      ∧ mainOutcome { allGoodInput with connManagerStartOk := false }
          = mainOutcome allGoodInput) :=
  ⟨rfl, rfl, c4_fatal_conditions allGoodInput false rfl rfl⟩

/-- C6: in the gracefulShutdown call sequence each of the four pipeline
components is torn down exactly once, and in the strict order connection
manager, then event processor, then metrics exporter, then state store; in
particular no component is invoked again after its teardown. -/
theorem c6_shutdown_order :
    gracefulShutdownTrace.count ShutdownStep.connManager = 1
    ∧ gracefulShutdownTrace.count ShutdownStep.eventProcessor = 1
    ∧ gracefulShutdownTrace.count ShutdownStep.metricsExporter = 1
    ∧ gracefulShutdownTrace.count ShutdownStep.stateStore = 1
    ∧ gracefulShutdownTrace.indexOf ShutdownStep.connManager
        < gracefulShutdownTrace.indexOf ShutdownStep.eventProcessor
    ∧ gracefulShutdownTrace.indexOf ShutdownStep.eventProcessor
        < gracefulShutdownTrace.indexOf ShutdownStep.metricsExporter
    ∧ gracefulShutdownTrace.indexOf ShutdownStep.metricsExporter
        < gracefulShutdownTrace.indexOf ShutdownStep.stateStore := by
  decide

/-- C7: GetMetrics is an idempotent accessor of a lazily constructed
singleton: a second call returns the same instance and state, and starting
from package initialization the once body runs at most one time over any
number of calls. -/
theorem c7_registry_once (s : StatsRegistry) (n : Nat) :
    (GetMetrics (GetMetrics s).2).1 = (GetMetrics s).1
    ∧ (GetMetrics (GetMetrics s).2).2 = (GetMetrics s).2
    ∧ (iterateGetMetrics n initialRegistry).onceRuns ≤ 1 := by
  refine ⟨?_, ?_, ?_⟩
  · cases h : s.globalMetrics with
    | some x => simp [GetMetrics, h]
    | none => simp [GetMetrics, h]
  · cases h : s.globalMetrics with
    | some x => simp [GetMetrics, h]
    | none => simp [GetMetrics, h]
  · cases n with
    | zero => decide
    | succ k =>
      show (iterateGetMetrics k (GetMetrics initialRegistry).2).onceRuns ≤ 1
      rw [iterateGetMetrics_stable k (GetMetrics initialRegistry).2
        (0, emptyInternalMetrics) rfl]
      decide

/-- C8: an event carrying the codec marker but no (or an empty) Unique-ID
header makes CalculateMetrics return an error and no metric, leaving the
store untouched. -/
theorem c8_missing_unique_id (now : Nat) (s : MemoryStore) (e : FSEvent)
    (iname : String)
    (hm : ¬ e.GetHeader "variable_rtp_use_codec_rate" = "")
    (hu : e.GetHeader "Unique-ID" = "") :
    CalculateMetrics now s e iname
      = (Except.error "CHANNEL_DESTROY event missing Unique-ID", s) := by
  unfold CalculateMetrics
  rw [if_neg hm, if_pos hu]

/-- C8, witness: evaluated on an event carrying only the marker. -/
theorem c8_witness :
    ¬ evMarkerOnly.GetHeader "variable_rtp_use_codec_rate" = ""
    ∧ evMarkerOnly.GetHeader "Unique-ID" = ""
    ∧ CalculateMetrics 0 [] evMarkerOnly "fs1"
        = (Except.error "CHANNEL_DESTROY event missing Unique-ID", []) :=
  ⟨by decide, rfl, c8_missing_unique_id 0 [] evMarkerOnly "fs1" (by decide) rfl⟩

/-! ## State-and-domain stage helpers -/

theorem esdCore_found (now : Nat) (s : MemoryStore) (e : FSEvent) (m : QoSMetrics)
    (st : ChannelState) (hg : storeGet now s m.ChannelID = some st) :
    extractStateAndDomainCore now s e m =
      ({ m with CorrelationID := st.CorrelationID, DomainName := st.DomainName },
        storeDelete s m.ChannelID) := by
  unfold extractStateAndDomainCore
  rw [hg]

theorem esdCore_notfound (now : Nat) (s : MemoryStore) (e : FSEvent) (m : QoSMetrics)
    (hg : storeGet now s m.ChannelID = none) :
    extractStateAndDomainCore now s e m =
      ({ m with
          CorrelationID := fallbackCorrelationIDVal e m
          DomainName := fallbackDomainNameVal e m }, s) := by
  unfold extractStateAndDomainCore
  rw [hg]

theorem esdCore_preserves (now : Nat) (s : MemoryStore) (e : FSEvent) (m : QoSMetrics) :
    (extractStateAndDomainCore now s e m).1.MOSScore = m.MOSScore
    ∧ (extractStateAndDomainCore now s e m).1.MinJitter = m.MinJitter
    ∧ (extractStateAndDomainCore now s e m).1.MaxJitter = m.MaxJitter
    ∧ (extractStateAndDomainCore now s e m).1.AvgJitter = m.AvgJitter := by
  unfold extractStateAndDomainCore
  split
  · exact ⟨rfl, rfl, rfl, rfl⟩
  · exact ⟨rfl, rfl, rfl, rfl⟩

theorem firstNonEmpty_head (e : FSEvent) (k : String) (ks : List String)
    (h : ¬ e.GetHeader k = "") :
    firstNonEmptyHeader e (k :: ks) = e.GetHeader k := by
  simp [firstNonEmptyHeader, h]

theorem firstNonEmpty_tail (e : FSEvent) (k : String) (ks : List String)
    (h : e.GetHeader k = "") :
    firstNonEmptyHeader e (k :: ks) = firstNonEmptyHeader e ks := by
  simp [firstNonEmptyHeader, h]

theorem quality_values (e : FSEvent) (m : QoSMetrics)
    (hmos : e.GetHeader "variable_rtp_audio_in_mos" = "4.2")
    (hmin : e.GetHeader "variable_rtp_audio_in_jitter_min_variance" = "1.0")
    (hmax : e.GetHeader "variable_rtp_audio_in_jitter_max_variance" = "3.0") :
    (extractQualityMetricsCore e m).MOSScore = 4.2
    ∧ (extractQualityMetricsCore e m).MinJitter = 1
    ∧ (extractQualityMetricsCore e m).MaxJitter = 3
    ∧ (extractQualityMetricsCore e m).AvgJitter = 2 := by
  have h1 : mosScoreVal e m = (4 : ℚ) + 2 / 10 ^ 1 :=
    mosScoreVal_parse e m _ (by rw [hmos]; exact rfl)
  have h2 : minJitterVal e m = (1 : ℚ) + 0 / 10 ^ 1 :=
    minJitterVal_parse e m _ (by rw [hmin]; exact rfl)
  have h3 : maxJitterVal e m = (3 : ℚ) + 0 / 10 ^ 1 :=
    maxJitterVal_parse e m _ (by rw [hmax]; exact rfl)
  refine ⟨?_, ?_, ?_, ?_⟩
  · show mosScoreVal e m = 4.2
    rw [h1]
    norm_num
  · show minJitterVal e m = 1
    rw [h2]
    norm_num
  · show maxJitterVal e m = 3
    rw [h3]
    norm_num
  · show avgJitterVal (qualityMid e m) = 2
    rw [avgJitterVal_pos]
    · show (minJitterVal e m + maxJitterVal e m) / 2 = 2
      rw [h2, h3]
      norm_num
    · left
      show (0 : ℚ) < minJitterVal e m
      rw [h2]
      norm_num

/-- C1: a termination event passing both guards whose ChannelID has a live
state in the store takes CorrelationID and DomainName from that state,
deletes the entry immediately, and a subsequent Get for that ChannelID
returns not-found. -/
theorem c1_state_single_consumption (now : Nat) (s : MemoryStore) (e : FSEvent)
    (iname : String) (st : ChannelState)
    (hm : ¬ e.GetHeader "variable_rtp_use_codec_rate" = "")
    (hu : ¬ e.GetHeader "Unique-ID" = "")
    (hg : storeGet now s (e.GetHeader "Unique-ID") = some st) :
    ∃ m, (CalculateMetrics now s e iname).1 = Except.ok m
      ∧ m.CorrelationID = st.CorrelationID
      ∧ m.DomainName = st.DomainName
      ∧ (CalculateMetrics now s e iname).2 = storeDelete s (e.GetHeader "Unique-ID")
      ∧ storeGet now (CalculateMetrics now s e iname).2 (e.GetHeader "Unique-ID")
          = none := by
  have hg2 : storeGet now s (calcPreState now iname e).ChannelID = some st := hg
  rw [CalculateMetrics_ok now s e iname hm hu,
    esdCore_found now s e (calcPreState now iname e) st hg2]
  refine ⟨_, rfl, rfl, rfl, rfl, ?_⟩
  exact storeGet_delete_self now s (e.GetHeader "Unique-ID")

/-- C1, witness: evaluated on a store holding a live state for channel
u1 and a termination event for u1. -/
theorem c1_witness :
    ¬ evTermination.GetHeader "variable_rtp_use_codec_rate" = ""
    ∧ ¬ evTermination.GetHeader "Unique-ID" = ""
    ∧ storeGet 0 storeWitness (evTermination.GetHeader "Unique-ID") = some stWitness
    ∧ (∃ m, (CalculateMetrics 0 storeWitness evTermination "fs1").1 = Except.ok m
        ∧ m.CorrelationID = stWitness.CorrelationID
        ∧ m.DomainName = stWitness.DomainName
        ∧ (CalculateMetrics 0 storeWitness evTermination "fs1").2
            = storeDelete storeWitness (evTermination.GetHeader "Unique-ID")
        ∧ storeGet 0 (CalculateMetrics 0 storeWitness evTermination "fs1").2
            (evTermination.GetHeader "Unique-ID") = none) :=
  ⟨by decide, by decide, by decide,
    c1_state_single_consumption 0 storeWitness evTermination "fs1" stWitness
      (by decide) (by decide) (by decide)⟩

/-- C3: a termination event passing both guards whose state lookup returns
not-found derives CorrelationID by the priority Other-Leg-Unique-ID, then
Unique-ID, then variable_sip_call_id, then variable_global_call_id, and
DomainName by the priority variable_domain_name, then
variable_sip_from_host, then variable_sip_to_host, else empty; in
particular a non-empty Other-Leg-Unique-ID wins the correlation id, and
with no explicit domain header a non-empty from-host wins the domain. -/
theorem c3_header_priority_fallback (now : Nat) (s : MemoryStore) (e : FSEvent)
    (iname : String)
    (hm : ¬ e.GetHeader "variable_rtp_use_codec_rate" = "")
    (hu : ¬ e.GetHeader "Unique-ID" = "")
    (hg : storeGet now s (e.GetHeader "Unique-ID") = none) :
    ∃ m, (CalculateMetrics now s e iname).1 = Except.ok m
      ∧ m.CorrelationID = firstNonEmptyHeader e
          ["Other-Leg-Unique-ID", "Unique-ID", "variable_sip_call_id",
            "variable_global_call_id"]
      ∧ m.DomainName = firstNonEmptyHeader e
          ["variable_domain_name", "variable_sip_from_host", "variable_sip_to_host"]
      ∧ (CalculateMetrics now s e iname).2 = s
      ∧ (¬ e.GetHeader "Other-Leg-Unique-ID" = "" →
          m.CorrelationID = e.GetHeader "Other-Leg-Unique-ID")
      ∧ (e.GetHeader "variable_domain_name" = "" →
          ¬ e.GetHeader "variable_sip_from_host" = "" →
          m.DomainName = e.GetHeader "variable_sip_from_host") := by
  have hg2 : storeGet now s (calcPreState now iname e).ChannelID = none := hg
  rw [CalculateMetrics_ok now s e iname hm hu,
    esdCore_notfound now s e (calcPreState now iname e) hg2]
  have hcorr : fallbackCorrelationIDVal e (calcPreState now iname e) =
      firstNonEmptyHeader e
        ["Other-Leg-Unique-ID", "Unique-ID", "variable_sip_call_id",
          "variable_global_call_id"] :=
    fallbackCorrelationIDVal_eq e (calcPreState now iname e) rfl
  have hdom : fallbackDomainNameVal e (calcPreState now iname e) =
      firstNonEmptyHeader e
        ["variable_domain_name", "variable_sip_from_host", "variable_sip_to_host"] :=
    fallbackDomainNameVal_eq e (calcPreState now iname e) rfl
  refine ⟨_, rfl, hcorr, hdom, rfl, ?_, ?_⟩
  · intro hno
    show fallbackCorrelationIDVal e (calcPreState now iname e)
      = e.GetHeader "Other-Leg-Unique-ID"
    rw [hcorr]
    exact firstNonEmpty_head e _ _ hno
  · intro hdn hfrom
    show fallbackDomainNameVal e (calcPreState now iname e)
      = e.GetHeader "variable_sip_from_host"
    rw [hdom, firstNonEmpty_tail e _ _ hdn]
    exact firstNonEmpty_head e _ _ hfrom

/-- C3, witness: evaluated on an empty store and an event carrying an
other-leg id, a signaling call id and a from-host. -/
theorem c3_witness :
    ¬ evFallback.GetHeader "variable_rtp_use_codec_rate" = ""
    ∧ ¬ evFallback.GetHeader "Unique-ID" = ""
    ∧ storeGet 0 [] (evFallback.GetHeader "Unique-ID") = none
    ∧ (∃ m, (CalculateMetrics 0 [] evFallback "fs1").1 = Except.ok m
        ∧ m.CorrelationID = firstNonEmptyHeader evFallback
            ["Other-Leg-Unique-ID", "Unique-ID", "variable_sip_call_id",
              "variable_global_call_id"]
        ∧ m.DomainName = firstNonEmptyHeader evFallback
            ["variable_domain_name", "variable_sip_from_host", "variable_sip_to_host"]
        ∧ (CalculateMetrics 0 [] evFallback "fs1").2 = []
        ∧ (¬ evFallback.GetHeader "Other-Leg-Unique-ID" = "" →
            m.CorrelationID = evFallback.GetHeader "Other-Leg-Unique-ID")
        ∧ (evFallback.GetHeader "variable_domain_name" = "" →
            ¬ evFallback.GetHeader "variable_sip_from_host" = "" →
            m.DomainName = evFallback.GetHeader "variable_sip_from_host")) :=
  ⟨by decide, by decide, rfl,
    c3_header_priority_fallback 0 [] evFallback "fs1" (by decide) (by decide) rfl⟩

/-- C5: a termination event with the codec marker, Unique-ID U1, a MOS
header of 4.2 and jitter variance bounds 1.0 and 3.0 produces a metric with
MOSScore 4.2 and AvgJitter 2, the average being (min + max) / 2. -/
theorem c5_scenario_values (now : Nat) (s : MemoryStore) (e : FSEvent)
    (iname : String)
    (hm : ¬ e.GetHeader "variable_rtp_use_codec_rate" = "")
    (hu : e.GetHeader "Unique-ID" = "U1")
    (hmos : e.GetHeader "variable_rtp_audio_in_mos" = "4.2")
    (hmin : e.GetHeader "variable_rtp_audio_in_jitter_min_variance" = "1.0")
    (hmax : e.GetHeader "variable_rtp_audio_in_jitter_max_variance" = "3.0") :
    ∃ m, (CalculateMetrics now s e iname).1 = Except.ok m
      ∧ m.MOSScore = 4.2
      ∧ m.MinJitter = 1
      ∧ m.MaxJitter = 3
      ∧ m.AvgJitter = 2
      ∧ m.AvgJitter = (m.MinJitter + m.MaxJitter) / 2 := by
  have hu2 : ¬ e.GetHeader "Unique-ID" = "" := by
    rw [hu]
    decide
  rw [CalculateMetrics_ok now s e iname hm hu2]
  obtain ⟨p1, p2, p3, p4⟩ := esdCore_preserves now s e (calcPreState now iname e)
  obtain ⟨q1, q2, q3, q4⟩ :=
    quality_values e (initMetrics now iname (e.GetHeader "Unique-ID")) hmos hmin hmax
  have r1 : (calcPreState now iname e).MOSScore = 4.2 := q1
  have r2 : (calcPreState now iname e).MinJitter = 1 := q2
  have r3 : (calcPreState now iname e).MaxJitter = 3 := q3
  have r4 : (calcPreState now iname e).AvgJitter = 2 := q4
  refine ⟨_, rfl, ?_, ?_, ?_, ?_, ?_⟩
  · rw [p1, r1]
  · rw [p2, r2]
  · rw [p3, r3]
  · rw [p4, r4]
  · rw [p4, r4, p2, r2, p3, r3]
    norm_num

/-- C5, witness: evaluated on the concrete scenario event. -/
theorem c5_witness :
    ¬ evScenario.GetHeader "variable_rtp_use_codec_rate" = ""
    ∧ evScenario.GetHeader "Unique-ID" = "U1"
    ∧ evScenario.GetHeader "variable_rtp_audio_in_mos" = "4.2"
    ∧ evScenario.GetHeader "variable_rtp_audio_in_jitter_min_variance" = "1.0"
    ∧ evScenario.GetHeader "variable_rtp_audio_in_jitter_max_variance" = "3.0"
    ∧ (∃ m, (CalculateMetrics 0 [] evScenario "fs1").1 = Except.ok m
        ∧ m.MOSScore = 4.2
        ∧ m.MinJitter = 1
        ∧ m.MaxJitter = 3
        ∧ m.AvgJitter = 2
        ∧ m.AvgJitter = (m.MinJitter + m.MaxJitter) / 2) :=
  ⟨by decide, rfl, rfl, rfl, rfl,
    c5_scenario_values 0 [] evScenario "fs1" (by decide) rfl rfl rfl rfl⟩

/-- C9: the three extraction helpers never return an error, and a numeric
header that fails to parse leaves the corresponding field alone: an
unparseable MOS keeps the prior MOSScore, unparseable packet counts leave
the packet total at zero, an unparseable payload type keeps the prior
CodecPT. -/
theorem c9_unparseable_is_benign (e : FSEvent) (m : QoSMetrics) :
    (∃ m1, extractQualityMetrics e m = Except.ok m1)
    ∧ (∃ m2, extractTrafficMetrics e m = Except.ok m2)
    ∧ (∃ m3, extractCodecInfo e m = Except.ok m3)
    ∧ (parseFloat? (e.GetHeader "variable_rtp_audio_in_mos") = none →
        (extractQualityMetricsCore e m).MOSScore = m.MOSScore)
    ∧ (parseInt64? (e.GetHeader "variable_rtp_audio_in_packet_count") = none →
        parseInt64? (e.GetHeader "variable_rtp_audio_out_packet_count") = none →
        (extractTrafficMetricsCore e m).TotalPackets = 0)
    ∧ (parseInt64? (e.GetHeader "variable_rtp_use_codec_pt") = none →
        (extractCodecInfoCore e m).CodecPT = m.CodecPT) := by
  refine ⟨⟨_, rfl⟩, ⟨_, rfl⟩, ⟨_, rfl⟩, ?_, ?_, ?_⟩
  · intro hq
    show mosScoreVal e m = m.MOSScore
    exact mosScoreVal_noparse e m hq
  · intro h1 h2
    show readInt64Header e "variable_rtp_audio_in_packet_count"
      + readInt64Header e "variable_rtp_audio_out_packet_count" = 0
    rw [readInt64Header_noparse e _ h1, readInt64Header_noparse e _ h2]
    exact rfl
  · intro hc
    show codecPTVal e m = m.CodecPT
    exact codecPTVal_noparse e m hc

/-- C9, witness: evaluated on an event whose numeric headers are present
but unparseable. -/
theorem c9_witness :
    parseFloat? (evBadNumbers.GetHeader "variable_rtp_audio_in_mos") = none
    ∧ parseInt64? (evBadNumbers.GetHeader "variable_rtp_audio_in_packet_count") = none
    ∧ parseInt64? (evBadNumbers.GetHeader "variable_rtp_audio_out_packet_count") = none
    ∧ parseInt64? (evBadNumbers.GetHeader "variable_rtp_use_codec_pt") = none
    ∧ (extractQualityMetricsCore evBadNumbers (initMetrics 0 "fs1" "u9")).MOSScore
        = (initMetrics 0 "fs1" "u9").MOSScore
    ∧ (extractTrafficMetricsCore evBadNumbers (initMetrics 0 "fs1" "u9")).TotalPackets
        = 0
    ∧ (extractCodecInfoCore evBadNumbers (initMetrics 0 "fs1" "u9")).CodecPT
        = (initMetrics 0 "fs1" "u9").CodecPT := by
  refine ⟨rfl, rfl, rfl, rfl, ?_, ?_, ?_⟩
  · exact (c9_unparseable_is_benign evBadNumbers (initMetrics 0 "fs1" "u9")).2.2.2.1 rfl
  · exact (c9_unparseable_is_benign evBadNumbers
      (initMetrics 0 "fs1" "u9")).2.2.2.2.1 rfl rfl
  · exact (c9_unparseable_is_benign evBadNumbers
      (initMetrics 0 "fs1" "u9")).2.2.2.2.2 rfl

/-! ## Counter map lemmas -/
theorem lookup_map_bump_self (l : List (String × Int)) (k : String) :
    lookupCount1 (l.map fun p => if p.1 = k then (p.1, p.2 + 1) else p) k
      = lookupCount1 l k + (if hasKey1 l k then 1 else 0) := by
  induction l with
  | nil => rfl
  | cons p tl ih =>
    by_cases h : p.1 = k
    · simp [lookupCount1, hasKey1, h]
    · simp [lookupCount1, hasKey1, h, ih]

theorem lookup_map_bump_other (l : List (String × Int)) (k k' : String) (hne : ¬ k' = k) :
    lookupCount1 (l.map fun p => if p.1 = k then (p.1, p.2 + 1) else p) k'
      = lookupCount1 l k' := by
  induction l with
  | nil => rfl
  | cons p tl ih =>
    by_cases h : p.1 = k
    · have h' : ¬ p.1 = k' := by
        rw [h]
        intro hh
        exact hne hh.symm
      have hkk : ¬ k = k' := fun hh => hne hh.symm
      simp [lookupCount1, h, h', hkk, ih]
    · by_cases h2 : p.1 = k'
      · simp [lookupCount1, h, h2, hne]
      · simp [lookupCount1, h, h2, ih]

theorem lookup_of_not_hasKey (l : List (String × Int)) (k : String)
    (h : hasKey1 l k = false) : lookupCount1 l k = 0 := by
  induction l with
  | nil => rfl
  | cons p tl ih =>
    by_cases hp : p.1 = k
    · simp [hasKey1, hp] at h
    · simp [hasKey1, hp] at h
      simp [lookupCount1, hp, ih h]

theorem hasKey_map_bump (l : List (String × Int)) (k k' : String) :
    hasKey1 (l.map fun p => if p.1 = k then (p.1, p.2 + 1) else p) k'
      = hasKey1 l k' := by
  induction l with
  | nil => rfl
  | cons p tl ih =>
    by_cases h : p.1 = k
    · simp [hasKey1, h, ih]
    · simp [hasKey1, h, ih]

theorem lookup_append (xs ys : List (String × Int)) (k : String) :
    lookupCount1 (xs ++ ys) k
      = if hasKey1 xs k then lookupCount1 xs k else lookupCount1 ys k := by
  induction xs with
  | nil => simp [hasKey1, lookupCount1]
  | cons p tl ih =>
    by_cases h : p.1 = k
    · simp [lookupCount1, hasKey1, h]
    · simp [lookupCount1, hasKey1, h, ih]

theorem lookupCount1_incr_self (l : List (String × Int)) (k : String) :
    lookupCount1 (incrCounter1 l k) k = lookupCount1 l k + 1 := by
  unfold incrCounter1
  cases hk : hasKey1 l k with
  | true => simp [hk, lookup_map_bump_self]
  | false =>
    simp only [hk, Bool.false_eq_true, if_false, List.map_append]
    rw [lookup_append]
    rw [hasKey_map_bump]
    rw [hk]
    simp [lookupCount1, lookup_of_not_hasKey l k hk]

theorem lookupCount1_incr_other (l : List (String × Int)) (k k' : String)
    (hne : ¬ k' = k) :
    lookupCount1 (incrCounter1 l k) k' = lookupCount1 l k' := by
  unfold incrCounter1
  cases hk : hasKey1 l k with
  | true => simp [hk, lookup_map_bump_other l k k' hne]
  | false =>
    simp only [hk, Bool.false_eq_true, if_false, List.map_append]
    rw [lookup_append, hasKey_map_bump, lookup_map_bump_other l k k' hne]
    have hkk : ¬ k = k' := fun hh => hne hh.symm
    cases h2 : hasKey1 l k' with
    | true => simp
    | false => simp [lookup_of_not_hasKey l k' h2, lookupCount1, hkk]

theorem hasKey_map_bump2 (l : List (String × List (String × Int))) (i t i' : String) :
    hasKey1 (l.map fun p => if p.1 = i then (p.1, incrCounter1 p.2 t) else p) i'
      = hasKey1 l i' := by
  induction l with
  | nil => rfl
  | cons p tl ih =>
    by_cases h : p.1 = i
    · simp [hasKey1, h, ih]
    · simp [hasKey1, h, ih]

theorem lookup2_append (xs ys : List (String × List (String × Int))) (i t : String) :
    lookupCount2 (xs ++ ys) i t
      = if hasKey1 xs i then lookupCount2 xs i t else lookupCount2 ys i t := by
  induction xs with
  | nil => simp [hasKey1, lookupCount2]
  | cons p tl ih =>
    by_cases h : p.1 = i
    · simp [lookupCount2, hasKey1, h]
    · simp [lookupCount2, hasKey1, h, ih]

theorem lookup2_of_not_hasKey (l : List (String × List (String × Int))) (i t : String)
    (h : hasKey1 l i = false) : lookupCount2 l i t = 0 := by
  induction l with
  | nil => rfl
  | cons p tl ih =>
    by_cases hp : p.1 = i
    · simp [hasKey1, hp] at h
    · simp [hasKey1, hp] at h
      simp [lookupCount2, hp, ih h]

theorem lookup2_map_bump_self (l : List (String × List (String × Int))) (i t : String) :
    lookupCount2 (l.map fun p => if p.1 = i then (p.1, incrCounter1 p.2 t) else p) i t
      = lookupCount2 l i t + (if hasKey1 l i then 1 else 0) := by
  induction l with
  | nil => rfl
  | cons p tl ih =>
    by_cases h : p.1 = i
    · simp [lookupCount2, hasKey1, h, lookupCount1_incr_self]
    · simp [lookupCount2, hasKey1, h, ih]

theorem lookup2_map_bump_frame (l : List (String × List (String × Int)))
    (i t i' t' : String) (h : ¬ (i' = i ∧ t' = t)) :
    lookupCount2 (l.map fun p => if p.1 = i then (p.1, incrCounter1 p.2 t) else p) i' t'
      = lookupCount2 l i' t' := by
  induction l with
  | nil => rfl
  | cons p tl ih =>
    by_cases hpi : p.1 = i
    · by_cases hpi' : p.1 = i'
      · have hii : i' = i := hpi'.symm.trans hpi
        have htt : ¬ t' = t := fun ht => h ⟨hii, ht⟩
        simp [lookupCount2, hpi, hpi', hii, lookupCount1_incr_other _ _ _ htt, ih]
      · have hii : ¬ i = i' := by
          rw [← hpi]
          exact hpi'
        simp [lookupCount2, hpi, hpi', hii, ih]
    · by_cases hpi' : p.1 = i'
      · have hii : ¬ i' = i := by
          rw [← hpi']
          exact hpi
        simp [lookupCount2, hpi, hpi', hii]
      · simp [lookupCount2, hpi, hpi', ih]

theorem lookupCount2_incr_self (l : List (String × List (String × Int))) (i t : String) :
    lookupCount2 (incrCounter2 l i t) i t = lookupCount2 l i t + 1 := by
  unfold incrCounter2
  cases hk : hasKey1 l i with
  | true => simp [hk, lookup2_map_bump_self]
  | false =>
    simp only [hk, Bool.false_eq_true, if_false, List.map_append]
    rw [lookup2_append, hasKey_map_bump2, hk]
    have h0 : incrCounter1 [] t = [(t, 1)] := by
      simp [incrCounter1, hasKey1]
    simp [lookupCount2, lookupCount1, h0, lookup2_of_not_hasKey l i t hk]

theorem lookupCount2_incr_frame (l : List (String × List (String × Int)))
    (i t i' t' : String) (h : ¬ (i' = i ∧ t' = t)) :
    lookupCount2 (incrCounter2 l i t) i' t' = lookupCount2 l i' t' := by
  unfold incrCounter2
  cases hk : hasKey1 l i with
  | true => simp [hk, lookup2_map_bump_frame l i t i' t' h]
  | false =>
    simp only [hk, Bool.false_eq_true, if_false, List.map_append]
    rw [lookup2_append, hasKey_map_bump2, lookup2_map_bump_frame l i t i' t' h]
    have h0 : incrCounter1 [] t = [(t, 1)] := by
      simp [incrCounter1, hasKey1]
    cases h2 : hasKey1 l i' with
    | true => simp
    | false =>
      rw [lookup2_of_not_hasKey l i' t' h2]
      by_cases hii : i' = i
      · have htt : ¬ t' = t := fun ht => h ⟨hii, ht⟩
        have htt2 : ¬ t = t' := fun hh => htt hh.symm
        simp [lookupCount2, lookupCount1, h0, hii, htt2]
      · have hii2 : ¬ i = i' := fun hh => hii hh.symm
        simp [lookupCount2, h0, hii2]

/-- C10: IncrementEventsReceived adds exactly one to the counter of its
(instance, event type) pair and leaves every other counter unchanged: every
differently addressed pair of the same family reads as before, and the
other five counter families are untouched. -/
theorem c10_increment_frame (m : InternalMetrics) (inst evType inst2 evType2 : String)
    (h : ¬ (inst2 = inst ∧ evType2 = evType)) :
    lookupCount2 (IncrementEventsReceived m inst evType).eventsReceived inst evType
        = lookupCount2 m.eventsReceived inst evType + 1
    ∧ lookupCount2 (IncrementEventsReceived m inst evType).eventsReceived inst2 evType2
        = lookupCount2 m.eventsReceived inst2 evType2
    ∧ (IncrementEventsReceived m inst evType).eventsProcessed = m.eventsProcessed
    ∧ (IncrementEventsReceived m inst evType).rtcpMessagesProcessed
        = m.rtcpMessagesProcessed
    ∧ (IncrementEventsReceived m inst evType).qosMessagesGenerated
        = m.qosMessagesGenerated
    ∧ (IncrementEventsReceived m inst evType).storageOperations = m.storageOperations
    ∧ (IncrementEventsReceived m inst evType).fsConnections = m.fsConnections := by
  refine ⟨?_, ?_, rfl, rfl, rfl, rfl, rfl⟩
  · exact lookupCount2_incr_self m.eventsReceived inst evType
  · exact lookupCount2_incr_frame m.eventsReceived inst evType inst2 evType2 h

/-- C10, witness: evaluated on the empty registry, incrementing the pair
(fs1, CHANNEL_DESTROY) and framing against the pair (fs2, CHANNEL_CREATE). -/
theorem c10_witness :
    ¬ ("fs2" = "fs1" ∧ "CHANNEL_CREATE" = "CHANNEL_DESTROY")
    ∧ (lookupCount2 (IncrementEventsReceived emptyInternalMetrics "fs1"
          "CHANNEL_DESTROY").eventsReceived "fs1" "CHANNEL_DESTROY"
          = lookupCount2 emptyInternalMetrics.eventsReceived "fs1" "CHANNEL_DESTROY" + 1
      ∧ lookupCount2 (IncrementEventsReceived emptyInternalMetrics "fs1"
          "CHANNEL_DESTROY").eventsReceived "fs2" "CHANNEL_CREATE"
          = lookupCount2 emptyInternalMetrics.eventsReceived "fs2" "CHANNEL_CREATE"
      ∧ (IncrementEventsReceived emptyInternalMetrics "fs1"
          "CHANNEL_DESTROY").eventsProcessed = emptyInternalMetrics.eventsProcessed
      ∧ (IncrementEventsReceived emptyInternalMetrics "fs1"
          "CHANNEL_DESTROY").rtcpMessagesProcessed
          = emptyInternalMetrics.rtcpMessagesProcessed
      ∧ (IncrementEventsReceived emptyInternalMetrics "fs1"
          "CHANNEL_DESTROY").qosMessagesGenerated
          = emptyInternalMetrics.qosMessagesGenerated
      ∧ (IncrementEventsReceived emptyInternalMetrics "fs1"
          "CHANNEL_DESTROY").storageOperations = emptyInternalMetrics.storageOperations
      ∧ (IncrementEventsReceived emptyInternalMetrics "fs1"
          "CHANNEL_DESTROY").fsConnections = emptyInternalMetrics.fsConnections) :=
  ⟨by decide,
    c10_increment_frame emptyInternalMetrics "fs1" "CHANNEL_DESTROY" "fs2"
      "CHANNEL_CREATE" (by decide)⟩
